import Mathlib

/-!
Shallow embedding of `src/client/DeviceExtension.js` from the
forge-dataviz-iot-reference-app repository: a viewer extension that adds a
toolbar button toggling an "Add Device" panel, which submits a device record
(three form fields plus the bounding-box center of the selected object) as a
JSON POST to a configured endpoint.

Host-framework collaborators (viewer selection, instance-tree fragment
enumeration, fragment world bounds, `fetch`) are modelled as explicit
parameters of the submit environment; DOM state relevant to the claims (the
`disabled` attribute of the submit button, the toolbar control tree) is
modelled as explicit state.
-/

namespace DeviceExt

/-- Object identifiers (`dbId`s) in the viewer's selection. -/
abbrev DbId := Nat

/-- Fragment identifiers enumerated by the instance tree. -/
abbrev FragId := Nat

/-- A 3-component coordinate, modelling a finite `THREE.Vector3`. -/
structure Vec3 where
  x : ℚ
  y : ℚ
  z : ℚ
deriving DecidableEq, Repr

/-- A non-degenerate axis-aligned box (`THREE.Box3` with finite bounds). -/
structure Box3 where
  min : Vec3
  max : Vec3
deriving DecidableEq, Repr

/-- `new THREE.Box3()` constructs the empty box (min = +inf, max = -inf);
we model the possibly-empty box as `Option Box3`, with `none` standing for
that empty box. -/
def emptyBox3 : Option Box3 := none

/-- `THREE.Box3.union`: componentwise min of mins and max of maxes; the
empty box is the identity of the union. -/
def unionBox : Option Box3 → Box3 → Option Box3
  | none, b => some b
  | some a, b =>
      some ⟨⟨Min.min a.min.x b.min.x, Min.min a.min.y b.min.y, Min.min a.min.z b.min.z⟩,
            ⟨Max.max a.max.x b.max.x, Max.max a.max.y b.max.y, Max.max a.max.z b.max.z⟩⟩

/-- `THREE.Box3.center`: the midpoint `(min + max) / 2` of a finite box. -/
def boxCenter (b : Box3) : Vec3 :=
  ⟨(b.min.x + b.max.x) / 2, (b.min.y + b.max.y) / 2, (b.min.z + b.max.z) / 2⟩

/-- Center of a possibly-empty box; the empty box has no finite center
(`NaN` in the JS code, serialized as JSON `null`). -/
def centerOpt (b : Option Box3) : Option Vec3 :=
  b.map boxCenter

/-- JSON values as produced by `JSON.stringify` of the device record.
`num none` stands for the serialization of `NaN` (JSON `null`). -/
inductive JValue where
  | str : String → JValue
  | num : Option ℚ → JValue
  | obj : List (String × JValue) → JValue

/-- The three current form-field values read from the panel's DOM. -/
structure FormFields where
  deviceModelId : String
  deviceId : String
  deviceName : String

/-- The `{x, y, z}` JSON object for the (possibly undefined) center. -/
def posJson (c : Option Vec3) : JValue :=
  .obj [("x", .num (c.map Vec3.x)), ("y", .num (c.map Vec3.y)), ("z", .num (c.map Vec3.z))]

/-- The `device` object literal built in `onSubmitButtonClick`
(lines 112-117), key for key, including the misspelled `positon`. -/
def deviceJson (f : FormFields) (c : Option Vec3) : JValue :=
  .obj [("deviceModelId", .str f.deviceModelId),
        ("deviceId", .str f.deviceId),
        ("deviceName", .str f.deviceName),
        ("positon", posJson c)]

/-- The HTTP request handed to `fetch` (url, init options, JSON body). -/
structure Request where
  url : String
  method : String
  headers : List (String × String)
  body : JValue

/-- A `fetch` response: `ok` (2xx) flag and the body text. -/
structure FetchResponse where
  ok : Bool
  text : String

/-- Observable effects of a handler run: the issued POST, the blocking
alerts shown to the user, and console logging. -/
inductive Effect where
  | fetchPost : Request → Effect
  | alert : String → Effect
  | consoleError : String → Effect
  | consoleLog : String → Effect

/-- The DOM state of the panel that the claims are about: whether the
`submitBtn` element currently carries the `disabled` attribute. -/
structure PanelDom where
  submitDisabled : Bool
deriving DecidableEq, Repr

/-- The freshly rendered form (panel constructor, lines 66-80): the
`<button id="submitBtn">` markup carries no `disabled` attribute. -/
def initialPanelDom : PanelDom :=
  { submitDisabled := false }

/-- `NewDevicePanel.onViewerSelectionChanged` (lines 87-94): read the
viewer's current selection; enable the submit button exactly when one
object is selected, disable it otherwise. -/
def onViewerSelectionChanged (selection : List DbId) (dom : PanelDom) : PanelDom :=
  if selection.length = 1 then
    { dom with submitDisabled := false }
  else
    { dom with submitDisabled := true }

/-- `NewDevicePanel` constructor (lines 55-84), restricted to the submit
control's state: render the form, then invoke `onViewerSelectionChanged`
once against the selection existing at construction time. -/
def newDevicePanelConstruct (selection : List DbId) : PanelDom :=
  onViewerSelectionChanged selection initialPanelDom

/-- A toolbar control group (`Autodesk.Viewing.UI.ControlGroup`): its id and
the ids of the controls (buttons) added to it. -/
structure ControlGroup where
  id : String
  controls : List String
deriving DecidableEq, Repr

/-- The viewer toolbar: an ordered list of control groups. -/
structure Toolbar where
  controls : List ControlGroup
deriving DecidableEq, Repr

/-- `toolbar.getControl(id)`: the first control with the given id, if any. -/
def Toolbar.getControl (tb : Toolbar) (i : String) : Option ControlGroup :=
  tb.controls.find? (fun g => g.id = i)

/-- `toolbar.addControl(group)`: append the group to the toolbar. -/
def Toolbar.addControl (tb : Toolbar) (g : ControlGroup) : Toolbar :=
  { controls := tb.controls ++ [g] }

/-- Options passed to the `DeviceExtension` constructor; the caller may or
may not supply a `url`. -/
structure Options where
  url : Option String

/-- Options as stored on the extension after construction (`this.options`),
where `url` is always a string. -/
structure StoredOptions where
  url : String
deriving DecidableEq, Repr

/-- The hard-coded endpoint assigned on line 13 of the constructor. -/
def defaultUrl : String := "/api/devices?provider=synthetic&project=unused"

/-- The extension's fields (`this.options`, `this._panel`, `this._group`,
`this._button`) together with the viewer toolbar it manipulates. -/
structure ExtensionState where
  options : StoredOptions
  panel : Option PanelDom
  group : Option String
  button : Option String
  toolbar : Toolbar
deriving DecidableEq, Repr

/-- `DeviceExtension` constructor (lines 11-15): store the options, then
unconditionally overwrite `this.options.url` with the hard-coded endpoint,
and initialize `this._panel` to `null`. -/
def deviceExtensionConstructor (tb : Toolbar) (_opts : Options) : ExtensionState :=
  { options := { url := defaultUrl },
    panel := none,
    group := none,
    button := none,
    toolbar := tb }

/-- `DeviceExtension.load` (lines 17-20): log a message and return `true`;
the state is untouched. -/
def DeviceExtension.load (st : ExtensionState) : ExtensionState × Bool × List Effect :=
  (st, true, [.consoleLog "DeviceExtension loaded."])

/-- `DeviceExtension.unload` (lines 22-25): log a message and return `true`;
the state is untouched. -/
def DeviceExtension.unload (st : ExtensionState) : ExtensionState × Bool × List Effect :=
  (st, true, [.consoleLog "DeviceExtension unloaded."])

/-- `DeviceExtension._createUI` (lines 31-47): look up the control group
`device-extension-group` on the toolbar; when absent, create it, add it to
the toolbar, and add the single `add-device-button` button to it; when
present, only record the existing group and leave the toolbar unchanged. -/
def createUI (st : ExtensionState) : ExtensionState :=
  match st.toolbar.getControl "device-extension-group" with
  | some g => { st with group := some g.id }
  | none =>
      { st with
        toolbar := st.toolbar.addControl ⟨"device-extension-group", ["add-device-button"]⟩,
        group := some "device-extension-group",
        button := some "add-device-button" }

/-- The environment of one `onSubmitButtonClick` run: the host viewer's
current selection, the instance tree's fragment enumeration (fallible, as a
host call on an `undefined` dbId may throw), the fragment list's world
bounds, the panel's form fields, the configured url (`this.options.url`),
and the `fetch` implementation (fallible: a network error rejects). -/
structure SubmitEnv where
  selection : List DbId
  enumNodeFragments : Option DbId → Except String (List FragId)
  getWorldBounds : FragId → Box3
  fields : FormFields
  url : String
  fetch : Request → Except String FetchResponse

/-- `totalBounds` of `onSubmitButtonClick` (lines 103-108): starting from
the empty `THREE.Box3`, for each fragment enumerated for the object, read
its world bounds into `fragBounds` and union it into the accumulator. -/
def totalBoundsOf (env : SubmitEnv) (fragIds : List FragId) : Option Box3 :=
  fragIds.foldl (fun acc fid => unionBox acc (env.getWorldBounds fid)) emptyBox3

/-- The `fetch` call of `onSubmitButtonClick` (lines 118-124): POST to
`this.options.url` with the JSON content type and the stringified `device`
record (fields read on lines 112-117, center computed on line 109). -/
def submitRequest (env : SubmitEnv) (fragIds : List FragId) : Request :=
  { url := env.url,
    method := "post",
    headers := [("Content-Type", "application/json")],
    body := deviceJson env.fields (centerOpt (totalBoundsOf env fragIds)) }

/-- The body of the `try` block of `onSubmitButtonClick` (lines 98-129):
the effects emitted so far, paired with either normal completion or the
thrown error. `dbids[0]` is `selection.head?`; after a response arrives,
the non-`ok` branch throws an error carrying the response text (line 126),
while the `ok` branch shows the success alert (line 128). -/
def submitBody (env : SubmitEnv) : List Effect × Except String Unit :=
  match env.enumNodeFragments env.selection.head? with
  | .error e => ([], .error e)
  | .ok fragIds =>
      match env.fetch (submitRequest env fragIds) with
      | .error e => ([.fetchPost (submitRequest env fragIds)], .error e)
      | .ok resp =>
          if resp.ok then
            ([.fetchPost (submitRequest env fragIds),
              .alert "New device has been successfully added."], .ok ())
          else
            ([.fetchPost (submitRequest env fragIds)], .error resp.text)

/-- `NewDevicePanel.onSubmitButtonClick` (lines 97-134): run the body; on
any thrown error, show the generic failure alert and log the error to the
console; nothing propagates out of the handler. -/
def onSubmitButtonClick (env : SubmitEnv) : List Effect :=
  match submitBody env with
  | (effs, .ok _) => effs
  | (effs, .error e) =>
      effs ++ [.alert "Could not add new device. See console for more details.",
               .consoleError e]

/-- The alert messages, in order, shown to the user by a list of effects. -/
def alertsOf (effs : List Effect) : List String :=
  effs.filterMap (fun e => match e with | .alert s => some s | _ => none)

/-- The POST requests, in order, issued by a list of effects. -/
def fetchesOf (effs : List Effect) : List Request :=
  effs.filterMap (fun e => match e with | .fetchPost r => some r | _ => none)

/-- The union of a list of boxes, starting from the empty box and folding
union over every box, as described in the spec. -/
def unionFold (boxes : List Box3) : Option Box3 :=
  boxes.foldl unionBox emptyBox3

/-- The value of the `positon` key of a request's JSON body, if the body
is an object carrying one. -/
def positonOf (r : Request) : Option JValue :=
  match r.body with
  | .obj kvs => (kvs.find? (fun kv => kv.1 = "positon")).map Prod.snd
  | _ => none

/-- The `positon` values of the POSTs issued by a list of effects. -/
def sentPositons (effs : List Effect) : List (Option JValue) :=
  (fetchesOf effs).map positonOf

/-- A concrete submit environment used to witness the submit-handler
theorems: two objects selected, the first of which has two fragments. -/
def envW : SubmitEnv :=
  { selection := [3, 4],
    enumNodeFragments := fun d =>
      match d with
      | some 3 => .ok [10, 11]
      | _ => .error "InstanceTree: no such node",
    getWorldBounds := fun f =>
      if f = 10 then ⟨⟨0, 0, 0⟩, ⟨2, 2, 2⟩⟩ else ⟨⟨1, 1, 1⟩, ⟨4, 4, 4⟩⟩,
    fields := ⟨"dm1", "dev-1", "Device One"⟩,
    url := defaultUrl,
    fetch := fun _ => .ok ⟨true, ""⟩ }

/-- Concrete construction options carrying a custom url, used to test
configurability of the endpoint. -/
def customOpts : Options :=
  { url := some "https://example.com/custom" }

/-- A submit environment whose url is the one stored by an extension
constructed with `customOpts`. -/
def envCustom : SubmitEnv :=
  { envW with url := (deviceExtensionConstructor ⟨[]⟩ customOpts).options.url }

/-- A concrete extension state with an empty toolbar, used to witness the
toolbar-idempotence theorem. -/
def extW : ExtensionState :=
  { options := ⟨defaultUrl⟩, panel := none, group := none, button := none, toolbar := ⟨[]⟩ }

end DeviceExt

namespace DeviceExt

/-! ### Helper lemmas -/

/-- `find?` skips a prefix in which nothing matches. -/
theorem find?_append_of_none {α : Type} (p : α → Bool) (l₁ l₂ : List α)
    (h : l₁.find? p = none) : (l₁ ++ l₂).find? p = l₂.find? p := by
  induction l₁ with
  | nil => rfl
  | cons a l ih =>
      cases hp : p a with
      | true => rw [List.find?_cons_of_pos _ hp] at h; exact absurd h (by simp)
      | false =>
          have hp' : ¬p a = true := by simp [hp]
          rw [List.find?_cons_of_neg _ hp'] at h
          rw [List.cons_append, List.find?_cons_of_neg _ hp']
          exact ih h

/-- The effects of `onSubmitButtonClick` contain exactly the single POST
`submitRequest env fragIds` whenever the fragment enumeration succeeds. -/
theorem fetchesOf_onSubmit (env : SubmitEnv) (fragIds : List FragId)
    (h : env.enumNodeFragments env.selection.head? = .ok fragIds) :
    fetchesOf (onSubmitButtonClick env) = [submitRequest env fragIds] := by
  unfold onSubmitButtonClick submitBody
  rw [h]
  cases hf : env.fetch (submitRequest env fragIds) with
  | error e => simp [fetchesOf, hf]
  | ok resp =>
      by_cases hok : resp.ok
      · simp [fetchesOf, hf, hok]
      · simp [fetchesOf, hf, hok]

/-- When the group is absent, `_createUI` creates it with its single
button and appends it to the toolbar. -/
theorem createUI_of_absent (st : ExtensionState)
    (h : st.toolbar.getControl "device-extension-group" = none) :
    createUI st =
      { st with
        toolbar := st.toolbar.addControl ⟨"device-extension-group", ["add-device-button"]⟩,
        group := some "device-extension-group",
        button := some "add-device-button" } := by
  unfold createUI
  rw [h]

/-- When the group is present, `_createUI` only records it and leaves the
toolbar unchanged. -/
theorem createUI_of_present (st : ExtensionState) (g : ControlGroup)
    (h : st.toolbar.getControl "device-extension-group" = some g) :
    createUI st = { st with group := some g.id } := by
  unfold createUI
  rw [h]

/-- After the group is appended to a toolbar that did not contain it,
looking it up finds exactly the appended group. -/
theorem getControl_addControl_self (tb : Toolbar)
    (h : tb.getControl "device-extension-group" = none) :
    (tb.addControl ⟨"device-extension-group", ["add-device-button"]⟩).getControl
        "device-extension-group"
      = some ⟨"device-extension-group", ["add-device-button"]⟩ := by
  unfold Toolbar.getControl Toolbar.addControl
  unfold Toolbar.getControl at h
  rw [find?_append_of_none _ _ _ h]
  rw [List.find?_cons_of_pos _ (by decide)]

/-- Once `_createUI` has run on a state without the group, further runs
never change the toolbar. -/
theorem iterate_createUI_toolbar (st : ExtensionState)
    (h : st.toolbar.getControl "device-extension-group" = none) (m : ℕ) :
    (createUI^[m] (createUI st)).toolbar = (createUI st).toolbar := by
  induction m with
  | zero => rfl
  | succ k ih =>
      rw [Function.iterate_succ_apply']
      have hg : (createUI^[k] (createUI st)).toolbar.getControl "device-extension-group"
          = some ⟨"device-extension-group", ["add-device-button"]⟩ := by
        rw [ih, createUI_of_absent st h]
        exact getControl_addControl_self st.toolbar h
      rw [createUI_of_present _ _ hg]
      exact ih

/-! ### Claim theorems -/

/-- C1: for every selection-changed event delivered to the panel, the
handler enables the submit control if and only if the viewer's current
selection list has length exactly 1; for every other selection size it
disables the control. -/
theorem c1_selection_enables_submit_iff_single (sel : List DbId) (dom : PanelDom) :
    (onViewerSelectionChanged sel dom).submitDisabled = false ↔ sel.length = 1 := by
  by_cases h : sel.length = 1 <;> simp [onViewerSelectionChanged, h]

/-- C2: every run of the submit handler shows the user exactly one of two
alerts: the success notification exactly when the body completed normally
(the HTTP response was ok), and the single generic failure notification
whenever any step threw (network error, non-2xx status, or an exception in
the bounding-box step); the alert text is always one of these two fixed
strings, so raw error detail is never shown, and the handler is a total
function, so no failure propagates out of it. -/
theorem c2_submit_alert_dichotomy (env : SubmitEnv) :
    (alertsOf (onSubmitButtonClick env) = ["New device has been successfully added."]
       ∧ (submitBody env).2 = Except.ok ())
    ∨ (alertsOf (onSubmitButtonClick env) = ["Could not add new device. See console for more details."]
       ∧ ∃ e, (submitBody env).2 = Except.error e) := by
  cases he : env.enumNodeFragments env.selection.head? with
  | error e =>
      right
      refine ⟨?_, e, ?_⟩ <;> simp [onSubmitButtonClick, submitBody, alertsOf, he]
  | ok fragIds =>
      cases hf : env.fetch (submitRequest env fragIds) with
      | error e =>
          right
          refine ⟨?_, e, ?_⟩ <;> simp [onSubmitButtonClick, submitBody, alertsOf, he, hf]
      | ok resp =>
          by_cases hok : resp.ok
          · left
            refine ⟨?_, ?_⟩ <;> simp [onSubmitButtonClick, submitBody, alertsOf, he, hf, hok]
          · right
            refine ⟨?_, resp.text, ?_⟩ <;>
              simp [onSubmitButtonClick, submitBody, alertsOf, he, hf, hok]

/-- C8 counterexample: with exactly one object (dbId 7) selected at the
moment of panel construction, the submit control comes out of the
constructor enabled, not disabled, because the constructor immediately runs
the selection-change handler against the current selection. -/
theorem c8_counterexample_single_selection_enabled :
    (newDevicePanelConstruct [7]).submitDisabled = false := rfl

/-- C8 amended: on panel construction the selection-change handler is
invoked once against the selection existing at that moment, so the submit
control enters the Disabled state exactly when that selection's size is not
1 (and the Enabled state when it is exactly 1). -/
theorem c8_amended_construct_disabled_iff_not_single (sel : List DbId) :
    (newDevicePanelConstruct sel).submitDisabled = true ↔ sel.length ≠ 1 := by
  by_cases h : sel.length = 1 <;>
    simp [newDevicePanelConstruct, onViewerSelectionChanged, initialPanelDom, h]

/-- C9: `load()` and `unload()` each return `true`, leave every field of
the extension state (options, panel, group, button, toolbar) unchanged, and
emit only their log message. -/
theorem c9_load_unload_pure (st : ExtensionState) :
    DeviceExtension.load st = (st, true, [Effect.consoleLog "DeviceExtension loaded."])
    ∧ DeviceExtension.unload st = (st, true, [Effect.consoleLog "DeviceExtension unloaded."]) :=
  ⟨rfl, rfl⟩

/-- C3: whenever the fragment enumeration succeeds, the submit handler
issues exactly one HTTP POST, to the configured url, with the single header
`Content-Type: application/json`, whose JSON body is an object with exactly
the keys `deviceModelId`, `deviceId`, `deviceName` (the three form-field
values) and the literally misspelled key `positon` holding the `{x, y, z}`
object with the computed center coordinates. -/
theorem c3_post_shape (env : SubmitEnv) (fragIds : List FragId)
    (h : env.enumNodeFragments env.selection.head? = .ok fragIds) :
    fetchesOf (onSubmitButtonClick env) =
      [{ url := env.url,
         method := "post",
         headers := [("Content-Type", "application/json")],
         body := JValue.obj
           [("deviceModelId", .str env.fields.deviceModelId),
            ("deviceId", .str env.fields.deviceId),
            ("deviceName", .str env.fields.deviceName),
            ("positon", JValue.obj
              [("x", .num ((centerOpt (totalBoundsOf env fragIds)).map Vec3.x)),
               ("y", .num ((centerOpt (totalBoundsOf env fragIds)).map Vec3.y)),
               ("z", .num ((centerOpt (totalBoundsOf env fragIds)).map Vec3.z))])] }] := by
  rw [fetchesOf_onSubmit env fragIds h]
  rfl

/-- Witness for C3 at the concrete environment `envW`. -/
theorem c3_post_shape_witness :
    fetchesOf (onSubmitButtonClick envW) =
      [{ url := envW.url,
         method := "post",
         headers := [("Content-Type", "application/json")],
         body := JValue.obj
           [("deviceModelId", .str envW.fields.deviceModelId),
            ("deviceId", .str envW.fields.deviceId),
            ("deviceName", .str envW.fields.deviceName),
            ("positon", JValue.obj
              [("x", .num ((centerOpt (totalBoundsOf envW [10, 11])).map Vec3.x)),
               ("y", .num ((centerOpt (totalBoundsOf envW [10, 11])).map Vec3.y)),
               ("z", .num ((centerOpt (totalBoundsOf envW [10, 11])).map Vec3.z))])] }] :=
  c3_post_shape envW [10, 11] rfl

/-- C4: whenever the fragment enumeration succeeds for the selected object,
the `positon` value of the single issued POST is the `{x, y, z}` object of
the center of the axis-aligned box obtained by starting from the empty box
and folding union over the world-space bounds of every enumerated
fragment. -/
theorem c4_position_is_union_center (env : SubmitEnv) (fragIds : List FragId)
    (h : env.enumNodeFragments env.selection.head? = .ok fragIds) :
    sentPositons (onSubmitButtonClick env) =
      [some (posJson (centerOpt (unionFold (fragIds.map env.getWorldBounds))))] := by
  have hu : unionFold (fragIds.map env.getWorldBounds) = totalBoundsOf env fragIds := by
    rw [unionFold, totalBoundsOf, List.foldl_map]
  rw [sentPositons, fetchesOf_onSubmit env fragIds h, hu]
  rfl

/-- Witness for C4 at the concrete environment `envW`. -/
theorem c4_position_is_union_center_witness :
    sentPositons (onSubmitButtonClick envW) =
      [some (posJson (centerOpt (unionFold ([10, 11].map envW.getWorldBounds))))] :=
  c4_position_is_union_center envW [10, 11] rfl

/-- C5: the submit handler performs no selection-size re-check at click
time: its behavior depends on the current selection only through its first
element (`dbids[0]`), so for any two selection lists with the same first
element — including empty or multi-element lists — the handler proceeds
identically. -/
theorem c5_no_recheck_head_only (env : SubmitEnv) (sel' : List DbId)
    (h : sel'.head? = env.selection.head?) :
    onSubmitButtonClick { env with selection := sel' } = onSubmitButtonClick env := by
  have hreq : ∀ fragIds, submitRequest { env with selection := sel' } fragIds
      = submitRequest env fragIds := fun _ => rfl
  unfold onSubmitButtonClick submitBody
  dsimp only
  rw [h]
  simp only [hreq]

/-- Witness for C5: dropping the second selected object leaves the
handler's behavior unchanged at `envW`. -/
theorem c5_no_recheck_head_only_witness :
    onSubmitButtonClick { envW with selection := [3] } = onSubmitButtonClick envW :=
  c5_no_recheck_head_only envW [3] rfl

/-- C6 counterexample: the claim that the POST goes to a url carried in the
construction options is false — with options supplying the custom url
`https://example.com/custom`, the constructor overwrites it and the handler
posts to the hard-coded default instead. -/
theorem c6_counterexample_url_not_configurable :
    customOpts.url = some "https://example.com/custom"
    ∧ (fetchesOf (onSubmitButtonClick envCustom)).map Request.url
        = ["/api/devices?provider=synthetic&project=unused"]
    ∧ ("/api/devices?provider=synthetic&project=unused" : String)
        ≠ "https://example.com/custom" := by
  refine ⟨rfl, ?_, by decide⟩
  rw [fetchesOf_onSubmit envCustom [10, 11] rfl]
  rfl

/-- C6 amended: the submit handler posts to `this.options.url`, but the
constructor unconditionally overwrites that field with the hard-coded
default `/api/devices?provider=synthetic&project=unused` whatever options
are supplied, so every issued POST goes to the default url; the endpoint is
changeable only by editing the source. -/
theorem c6_amended_posts_to_default_url (opts : Options) (tb : Toolbar) (env : SubmitEnv)
    (fragIds : List FragId)
    (h1 : env.url = (deviceExtensionConstructor tb opts).options.url)
    (h2 : env.enumNodeFragments env.selection.head? = .ok fragIds) :
    (fetchesOf (onSubmitButtonClick env)).map Request.url
      = ["/api/devices?provider=synthetic&project=unused"] := by
  rw [fetchesOf_onSubmit env fragIds h2]
  simp [submitRequest, h1, deviceExtensionConstructor, defaultUrl]

/-- Witness for the amended C6 at the concrete environment `envCustom`. -/
theorem c6_amended_posts_to_default_url_witness :
    (fetchesOf (onSubmitButtonClick envCustom)).map Request.url
      = ["/api/devices?provider=synthetic&project=unused"] :=
  c6_amended_posts_to_default_url customOpts ⟨[]⟩ envCustom [10, 11] rfl rfl

/-- C10: when more than one object is selected at click time, the payload's
position is computed from the fragments enumerated for the first selected
identifier only — the remaining identifiers contribute nothing — and the
POST is still issued, carrying the three form-field values. -/
theorem c10_multi_selection_uses_first_only (env : SubmitEnv) (d1 d2 : DbId)
    (rest : List DbId) (fragIds : List FragId)
    (h1 : env.selection = d1 :: d2 :: rest)
    (h2 : env.enumNodeFragments (some d1) = .ok fragIds) :
    fetchesOf (onSubmitButtonClick env) =
      [{ url := env.url,
         method := "post",
         headers := [("Content-Type", "application/json")],
         body := deviceJson env.fields
           (centerOpt (unionFold (fragIds.map env.getWorldBounds))) }] := by
  have h : env.enumNodeFragments env.selection.head? = .ok fragIds := by
    rw [h1]; exact h2
  have hu : unionFold (fragIds.map env.getWorldBounds) = totalBoundsOf env fragIds := by
    rw [unionFold, totalBoundsOf, List.foldl_map]
  rw [fetchesOf_onSubmit env fragIds h, hu]
  rfl

/-- C7: toolbar button creation is idempotent: starting from a toolbar with
no `device-extension-group`, invoking `_createUI` any positive number of
times leaves exactly one control group with that name on the toolbar,
containing exactly the one `add-device-button` button, and one further
invocation skips creation, leaving the toolbar unchanged. -/
theorem c7_createUI_idempotent (st : ExtensionState)
    (h : st.toolbar.getControl "device-extension-group" = none) (n : ℕ) :
    ((createUI^[n + 1] st).toolbar.controls.filter
        (fun g => g.id = "device-extension-group")).map ControlGroup.controls
      = [["add-device-button"]]
    ∧ (createUI (createUI^[n + 1] st)).toolbar = (createUI^[n + 1] st).toolbar := by
  have hit : (createUI^[n + 1] st).toolbar = (createUI st).toolbar := by
    rw [Function.iterate_succ_apply]
    exact iterate_createUI_toolbar st h n
  have hall : ∀ g ∈ st.toolbar.controls, ¬((g.id = "device-extension-group" : Bool) = true) :=
    List.find?_eq_none.mp h
  constructor
  · rw [hit, createUI_of_absent st h]
    show ((st.toolbar.controls
          ++ [(⟨"device-extension-group", ["add-device-button"]⟩ : ControlGroup)]).filter
        (fun g => g.id = "device-extension-group")).map ControlGroup.controls = _
    rw [List.filter_append, List.filter_eq_nil_iff.mpr hall]
    rfl
  · have hg : (createUI^[n + 1] st).toolbar.getControl "device-extension-group"
        = some ⟨"device-extension-group", ["add-device-button"]⟩ := by
      rw [hit, createUI_of_absent st h]
      exact getControl_addControl_self st.toolbar h
    rw [createUI_of_present _ _ hg]

/-- Witness for C7: two invocations on an empty toolbar yield exactly one
group with one button, and a third invocation changes nothing. -/
theorem c7_createUI_idempotent_witness :
    ((createUI^[2] extW).toolbar.controls.filter
        (fun g => g.id = "device-extension-group")).map ControlGroup.controls
      = [["add-device-button"]]
    ∧ (createUI (createUI^[2] extW)).toolbar = (createUI^[2] extW).toolbar :=
  c7_createUI_idempotent extW rfl 1

/-- Witness for C10 at the concrete environment `envW`, which has two
selected objects. -/
theorem c10_multi_selection_uses_first_only_witness :
    fetchesOf (onSubmitButtonClick envW) =
      [{ url := envW.url,
         method := "post",
         headers := [("Content-Type", "application/json")],
         body := deviceJson envW.fields
           (centerOpt (unionFold ([10, 11].map envW.getWorldBounds))) }] :=
  c10_multi_selection_uses_first_only envW 3 4 [] [10, 11] rfl rfl

end DeviceExt
